import Mathlib

/-!
# Shallow embedding of the vvg draw-call batching renderer

This file models the core of `src/renderer.cpp` (the nanovg Vulkan backend
`vvg::Renderer`): the texture registry, the paint encoder (`parsePaint`),
the frame session (`start`/`fill`/`stroke`/`triangles`/`cancel`/`flush`),
and the command emitter (`record`).

Modelling conventions:
* C++ `float` scalars are modelled as `ℚ`.  `std::sqrt` and the external
  nanovg helper `nvgTransformInverse` (third-party code, not part of this
  repository) are taken as parameters (`sqrtf`, `inv`), since the claims
  under scrutiny only concern how their results are routed.
* the `unsigned int` texture-id counter wraps at `2^32`.
* GPU handles (buffers, descriptor sets, image views) are not modelled;
  instead `flush` yields a trace of the allocation / binding decisions it
  takes, and `record` yields the emitted command list.
-/

namespace Vvg

/-- The modulus of the C++ `unsigned int` texture-id counter. -/
def u32 : ℕ := 2 ^ 32

/-- A 2x3 affine transform, the six coefficients of a nanovg `float[6]`
(`xform[0] .. xform[5]` become `a .. f`). -/
structure Xform where
  a : ℚ
  b : ℚ
  c : ℚ
  d : ℚ
  e : ℚ
  f : ℚ
deriving DecidableEq

/-- An RGBA color (`NVGcolor`, four floats).  Byte-for-byte comparison of two
colors (`std::memcmp`) is modelled as equality of the four components. -/
structure Color where
  r : ℚ
  g : ℚ
  b : ℚ
  a : ℚ
deriving DecidableEq

/-- The fields of `NVGpaint` used by the renderer. -/
structure NVGpaint where
  xform : Xform
  extent0 : ℚ
  extent1 : ℚ
  radius : ℚ
  feather : ℚ
  innerColor : Color
  outerColor : Color
  image : ℕ
deriving DecidableEq

/-- The fields of `NVGscissor` used by the renderer. -/
structure NVGscissor where
  xform : Xform
  extent0 : ℚ
  extent1 : ℚ
deriving DecidableEq

/-- One vertex: position and texture coordinate (`NVGvertex`). -/
structure NVGvertex where
  x : ℚ
  y : ℚ
  u : ℚ
  v : ℚ
deriving DecidableEq

/-- A path handed to `fill`/`stroke`: its fill fan vertices
(`path.fill`/`path.nfill`) and its stroke/fringe strip vertices
(`path.stroke`/`path.nstroke`). -/
structure NVGpath where
  fill : List NVGvertex
  stroke : List NVGvertex
deriving DecidableEq

/-- A row of a 4x4 matrix (four floats). -/
structure Vec4 where
  x : ℚ
  y : ℚ
  z : ℚ
  w : ℚ
deriving DecidableEq

/-- A 4x4 float matrix, row `i` of `m : Mat4` holding the C array cells
`m[i][0..3]`. -/
structure Mat4 where
  r0 : Vec4
  r1 : Vec4
  r2 : Vec4
  r3 : Vec4
deriving DecidableEq

/-- The Vulkan pixel formats the backend distinguishes
(`vk::Format::r8g8b8a8Unorm` for RGBA, `vk::Format::r8Unorm` for alpha-only). -/
inductive VkFormat where
  | r8g8b8a8Unorm
  | r8Unorm
deriving DecidableEq

/-- The per-draw shader uniform record (`UniformData`). -/
structure UniformData where
  viewW : ℚ
  viewH : ℚ
  type : ℕ
  texType : ℕ
  innerColor : Color
  outerColor : Color
  scissorMat : Mat4
  paintMat : Mat4
deriving DecidableEq

/-- Offsets/counts of one path's geometry in the shared vertex sequence
(`struct Path`, all fields default to 0). -/
structure Path where
  fillOffset : ℕ := 0
  fillCount : ℕ := 0
  strokeOffset : ℕ := 0
  strokeCount : ℕ := 0
deriving DecidableEq

/-- One accumulated draw entry (`struct DrawData`; the Vulkan descriptor-set
handle is not modelled). -/
structure DrawData where
  uniformData : UniformData
  texture : ℕ := 0
  paths : List Path := []
  triangleOffset : ℕ := 0
  triangleCount : ℕ := 0
deriving DecidableEq

/-- A registered texture (`vvg::Texture`): id, size and pixel format. -/
structure Texture where
  id : ℕ
  width : ℕ
  height : ℕ
  format : VkFormat
deriving DecidableEq

/-- The renderer state: texture registry (`texID_`, `textures_`), the open
frame session (`drawDatas_`, `vertices_`, `width_`, `height_`) and the
grow-only resource capacities (`uniformBuffer_`/`vertexBuffer_` memory sizes,
`descriptorPool_` existence and `descriptorPoolSize_`). -/
structure Renderer where
  texID : ℕ := 0
  textures : List Texture := []
  drawDatas : List DrawData := []
  vertices : List NVGvertex := []
  width : ℕ := 0
  height : ℕ := 0
  uniformBufSize : ℕ := 0
  vertexBufSize : ℕ := 0
  descriptorPoolSize : ℕ := 0
  hasDescriptorPool : Bool := false
  edgeAA : Bool := false
deriving DecidableEq

/-- The freshly initialised renderer (all counters zero, no buffers). -/
def Renderer.init : Renderer := {}

/-- `Renderer::createTexture`: increments `texID_` (an `unsigned int`, hence
mod `2^32`), appends a texture with the new id, and returns the id. -/
def Renderer.createTexture (r : Renderer) (fmt : VkFormat) (w h : ℕ) :
    ℕ × Renderer :=
  let id := (r.texID + 1) % u32
  (id, { r with texID := id, textures := r.textures ++ [⟨id, w, h, fmt⟩] })

/-- `Renderer::texture`: linear `find_if` lookup by id. -/
def Renderer.texture (r : Renderer) (id : ℕ) : Option Texture :=
  r.textures.find? (fun t => t.id == id)

/-- `Renderer::deleteTexture`: erase the first texture with the given id,
report whether one was found. -/
def Renderer.deleteTexture (r : Renderer) (id : ℕ) : Bool × Renderer :=
  if (r.textures.find? (fun t => t.id == id)).isSome then
    (true, { r with textures := r.textures.eraseP (fun t => t.id == id) })
  else
    (false, r)

/-- `Renderer::start`: stores the viewport and clears the accumulated
entries and vertices. -/
def Renderer.start (r : Renderer) (w h : ℕ) : Renderer :=
  { r with width := w, height := h, vertices := [], drawDatas := [] }

/-- `Renderer::cancel`: the function body in `renderer.cpp` is empty, so the
state is returned unchanged. -/
def Renderer.cancel (r : Renderer) : Renderer := r

/-- The stroke multiplier written by `parsePaint` into `paintMat[0][3]`:
`(strokeWidth * 0.5f + fringe * 0.5f) / fringe`. -/
def strokeMult (strokeWidth fringe : ℚ) : ℚ :=
  (strokeWidth * (1 / 2) + fringe * (1 / 2)) / fringe

/-- The scissor matrix built by `parsePaint`.  When either scissor extent is
below `-0.5` the inverse transform is skipped and the fourth row is set to
all ones; otherwise the inverted scissor transform is packed into the
upper-left block and the fourth row carries the extent and the two
antialiasing scale factors.  Cells `[0][3]`, `[1][3]`, `[2][3]` always hold
`paint.radius`, `paint.feather` and `strokeWidth`. -/
def scissorMatOf (inv : Xform → Xform) (sqrtf : ℚ → ℚ) (paint : NVGpaint)
    (scissor : NVGscissor) (fringe strokeWidth : ℚ) : Mat4 :=
  if scissor.extent0 < -(1 / 2) ∨ scissor.extent1 < -(1 / 2) then
    ⟨⟨0, 0, 0, paint.radius⟩,
     ⟨0, 0, 0, paint.feather⟩,
     ⟨0, 0, 0, strokeWidth⟩,
     ⟨1, 1, 1, 1⟩⟩
  else
    let i := inv scissor.xform
    ⟨⟨i.a, i.b, 0, paint.radius⟩,
     ⟨i.c, i.d, 0, paint.feather⟩,
     ⟨i.e, i.f, 1, strokeWidth⟩,
     ⟨scissor.extent0, scissor.extent1,
      sqrtf (scissor.xform.a * scissor.xform.a +
        scissor.xform.c * scissor.xform.c) / fringe,
      sqrtf (scissor.xform.b * scissor.xform.b +
        scissor.xform.d * scissor.xform.d) / fringe⟩⟩

/-- The paint matrix built by `parsePaint`: inverted paint transform in the
upper-left block, `[2][2] = 1`, extent in `[3][0..1]`, stroke multiplier in
`[0][3]`. -/
def paintMatOf (inv : Xform → Xform) (paint : NVGpaint)
    (fringe strokeWidth : ℚ) : Mat4 :=
  let i := inv paint.xform
  ⟨⟨i.a, i.b, 0, strokeMult strokeWidth fringe⟩,
   ⟨i.c, i.d, 0, 0⟩,
   ⟨i.e, i.f, 1, 0⟩,
   ⟨paint.extent0, paint.extent1, 0, 0⟩⟩

/-- The `texType` tag computed in the textured branch of `parsePaint`:
1 for `r8g8b8a8Unorm`, 2 otherwise.  The C++ code dereferences the result of
the texture lookup here with no null check; the `none` case corresponds to
that null dereference and is unreachable under the lookup-success
precondition studied separately (its value below is arbitrary). -/
def texTypeOf (r : Renderer) (image : ℕ) : ℕ :=
  match r.texture image with
  | some t => if t.format = VkFormat.r8g8b8a8Unorm then 1 else 2
  | none => 1

/-- The draw-entry shell produced by `Renderer::parsePaint` (the session
appends geometry ranges afterwards): classifies the paint as textured (3),
solid color (1) or gradient (2), copies the colors, and packs the scissor
and paint matrices. -/
def parsePaintData (r : Renderer) (inv : Xform → Xform) (sqrtf : ℚ → ℚ)
    (paint : NVGpaint) (scissor : NVGscissor) (fringe strokeWidth : ℚ) :
    DrawData :=
  { uniformData :=
      { viewW := (r.width : ℚ)
        viewH := (r.height : ℚ)
        type :=
          if paint.image ≠ 0 then 3
          else if paint.innerColor = paint.outerColor then 1
          else 2
        texType := if paint.image ≠ 0 then texTypeOf r paint.image else 0
        innerColor := paint.innerColor
        outerColor := paint.outerColor
        scissorMat := scissorMatOf inv sqrtf paint scissor fringe strokeWidth
        paintMat := paintMatOf inv paint fringe strokeWidth }
    texture := if paint.image ≠ 0 then paint.image else 0 }

/-- One step of the path loop in `Renderer::fill`: record the fill range and
append the fill vertices; when edge antialiasing is on and the path has
stroke (fringe) vertices, record and append those too. -/
def appendFillPath (edgeAA : Bool) (acc : List NVGvertex × List Path)
    (p : NVGpath) : List NVGvertex × List Path :=
  let verts := acc.1
  let fo := verts.length
  let verts1 := verts ++ p.fill
  if edgeAA ∧ 0 < p.stroke.length then
    (verts1 ++ p.stroke,
     acc.2 ++ [⟨fo, p.fill.length, verts1.length, p.stroke.length⟩])
  else
    (verts1, acc.2 ++ [⟨fo, p.fill.length, 0, 0⟩])

/-- `Renderer::fill`: one draw entry via `parsePaint` (stroke width taken
equal to `fringe`), then per-path geometry appended to the shared vertex
sequence.  The `bounds` argument is accepted but unused by the C++ code. -/
def Renderer.fill (r : Renderer) (inv : Xform → Xform) (sqrtf : ℚ → ℚ)
    (paint : NVGpaint) (scissor : NVGscissor) (fringe : ℚ)
    (bounds : List ℚ) (paths : List NVGpath) : Renderer :=
  let _ := bounds
  let dd := parsePaintData r inv sqrtf paint scissor fringe fringe
  let vp := paths.foldl (appendFillPath r.edgeAA) (r.vertices, [])
  { r with
    vertices := vp.1
    drawDatas := r.drawDatas ++ [{ dd with paths := vp.2 }] }

/-- One step of the path loop in `Renderer::stroke`: record the stroke range
and append the stroke vertices. -/
def appendStrokePath (acc : List NVGvertex × List Path) (p : NVGpath) :
    List NVGvertex × List Path :=
  (acc.1 ++ p.stroke, acc.2 ++ [⟨0, 0, acc.1.length, p.stroke.length⟩])

/-- `Renderer::stroke`: one draw entry via `parsePaint`, then per-path
stroke geometry appended to the shared vertex sequence. -/
def Renderer.stroke (r : Renderer) (inv : Xform → Xform) (sqrtf : ℚ → ℚ)
    (paint : NVGpaint) (scissor : NVGscissor) (fringe strokeWidth : ℚ)
    (paths : List NVGpath) : Renderer :=
  let dd := parsePaintData r inv sqrtf paint scissor fringe strokeWidth
  let vp := paths.foldl appendStrokePath (r.vertices, [])
  { r with
    vertices := vp.1
    drawDatas := r.drawDatas ++ [{ dd with paths := vp.2 }] }

/-- `Renderer::triangles`: one draw entry via `parsePaint` at
`fringe = 1, strokeWidth = 1`, with a single triangle range. -/
def Renderer.triangles (r : Renderer) (inv : Xform → Xform) (sqrtf : ℚ → ℚ)
    (paint : NVGpaint) (scissor : NVGscissor) (verts : List NVGvertex) :
    Renderer :=
  let dd := parsePaintData r inv sqrtf paint scissor 1 1
  { r with
    vertices := r.vertices ++ verts
    drawDatas := r.drawDatas ++
      [{ dd with
          triangleOffset := r.vertices.length
          triangleCount := verts.length }] }

/-- `sizeof(UniformData)` in the C++ source: 2+1+1+4+4+16+16 = 44 fields of
4 bytes, 176 bytes, no padding. -/
def sizeofUniformData : ℕ := 176

/-- `sizeof(NVGvertex)`: four floats, 16 bytes. -/
def sizeofNVGvertex : ℕ := 16

/-- What `Renderer::flush` did to the descriptor pool. -/
inductive PoolAction where
  | realloc (maxSets : ℕ)
  | reset
  | untouched
deriving DecidableEq

/-- The image a draw entry's descriptor set is bound to during `flush`:
either the dummy placeholder texture or the image of a registered texture. -/
inductive BoundImage where
  | dummy
  | tex (id : ℕ)
deriving DecidableEq

/-- The observable allocation / binding decisions of one `Renderer::flush`
call. -/
structure FlushTrace where
  uniformRealloc : Option ℕ := none
  vertexRealloc : Option ℕ := none
  poolAction : PoolAction := .untouched
  bindings : List BoundImage := []
  submitted : Bool := false
deriving DecidableEq

/-- The image bound for one draw entry in the descriptor-update loop of
`flush`: the dummy texture when `data.texture == 0`, else the looked-up
texture's image view (the C++ dereferences the lookup with no null check;
the lookup-success precondition is studied separately). -/
def flushBinding (d : DrawData) : BoundImage :=
  if d.texture = 0 then .dummy else .tex d.texture

/-- `Renderer::flush`: early return when no entries were accumulated;
otherwise grow the uniform buffer to `sizeof(UniformData) * entryCount` and
the vertex buffer to the accumulated vertex bytes when the current sizes do
not suffice, reallocate the descriptor pool to exactly `entryCount` sets
when `entryCount` exceeds its size (else reset the existing pool), bind each
entry's descriptor set, submit, and clear the accumulated entries and
vertices. -/
def Renderer.flush (r : Renderer) : Renderer × FlushTrace :=
  if r.drawDatas.isEmpty then (r, {})
  else
    let n := r.drawDatas.length
    let uniformSize := sizeofUniformData * n
    let uCap := if r.uniformBufSize < uniformSize then uniformSize
      else r.uniformBufSize
    let uRe : Option ℕ := if r.uniformBufSize < uniformSize then
      some uniformSize else none
    let vertexSize := r.vertices.length * sizeofNVGvertex
    let vCap := if r.vertexBufSize < vertexSize then vertexSize
      else r.vertexBufSize
    let vRe : Option ℕ := if r.vertexBufSize < vertexSize then
      some vertexSize else none
    let pool : ℕ × Bool × PoolAction :=
      if r.descriptorPoolSize < n then (n, true, .realloc n)
      else if r.hasDescriptorPool then
        (r.descriptorPoolSize, true, .reset)
      else (r.descriptorPoolSize, r.hasDescriptorPool, .untouched)
    ({ r with
        vertices := []
        drawDatas := []
        uniformBufSize := uCap
        vertexBufSize := vCap
        descriptorPoolSize := pool.1
        hasDescriptorPool := pool.2.1 },
     { uniformRealloc := uRe
       vertexRealloc := vRe
       poolAction := pool.2.2
       bindings := r.drawDatas.map flushBinding
       submitted := true })

/-- The three graphics pipeline variants. -/
inductive Pip where
  | fan
  | strip
  | list
deriving DecidableEq

/-- The numeric tag `Renderer::record` keeps in its local `bound` variable
for each pipeline variant. -/
def pipNum : Pip → ℕ
  | .fan => 1
  | .strip => 2
  | .list => 3

/-- The command-buffer calls `Renderer::record` can emit. -/
inductive Cmd where
  | bindVertexBuf
  | bindDescriptorSet
  | bindPipeline (p : Pip)
  | draw (count offset : ℕ)
deriving DecidableEq

/-- The fill part of the per-path loop of `record`: if the path has fill
vertices, bind the fan pipeline unless it is already bound, then draw. -/
def recordFill (b : ℕ) (p : Path) : ℕ × List Cmd :=
  if 0 < p.fillCount then
    if b ≠ 1 then
      (1, [.bindPipeline .fan, .draw p.fillCount p.fillOffset])
    else (b, [.draw p.fillCount p.fillOffset])
  else (b, [])

/-- The stroke part of the per-path loop of `record`: if the path has stroke
vertices, bind the strip pipeline unless it is already bound, then draw. -/
def recordStroke (b : ℕ) (p : Path) : ℕ × List Cmd :=
  if 0 < p.strokeCount then
    if b ≠ 2 then
      (2, [.bindPipeline .strip, .draw p.strokeCount p.strokeOffset])
    else (b, [.draw p.strokeCount p.strokeOffset])
  else (b, [])

/-- The triangle part of the per-entry loop of `record`: if the entry has
triangles, bind the list pipeline unless it is already bound, then draw. -/
def recordTri (b : ℕ) (d : DrawData) : ℕ × List Cmd :=
  if 0 < d.triangleCount then
    if b ≠ 3 then
      (3, [.bindPipeline .list, .draw d.triangleCount d.triangleOffset])
    else (b, [.draw d.triangleCount d.triangleOffset])
  else (b, [])

/-- One path of one draw entry in `record`: fill draw then stroke draw
(the two `if`s in the C++ loop body). -/
def recordPath (b : ℕ) (p : Path) : ℕ × List Cmd :=
  let f := recordFill b p
  let s := recordStroke f.1 p
  (s.1, f.2 ++ s.2)

/-- The path loop of one draw entry in `record`. -/
def recordPaths (b : ℕ) : List Path → ℕ × List Cmd
  | [] => (b, [])
  | p :: ps =>
    let h := recordPath b p
    let t := recordPaths h.1 ps
    (t.1, h.2 ++ t.2)

/-- One draw entry in `record`: bind its descriptor set, draw its paths,
then its triangles. -/
def recordData (b : ℕ) (d : DrawData) : ℕ × List Cmd :=
  let ps := recordPaths b d.paths
  let tr := recordTri ps.1 d
  (tr.1, Cmd.bindDescriptorSet :: (ps.2 ++ tr.2))

/-- The entry loop of `record`. -/
def recordDatas (b : ℕ) : List DrawData → ℕ × List Cmd
  | [] => (b, [])
  | d :: ds =>
    let h := recordData b d
    let t := recordDatas h.1 ds
    (t.1, h.2 ++ t.2)

/-- `Renderer::record`: bind the shared vertex buffer, then replay all
accumulated draw entries starting with no pipeline bound (`bound = 0`). -/
def Renderer.record (r : Renderer) : List Cmd :=
  Cmd.bindVertexBuf :: (recordDatas 0 r.drawDatas).2

/-- The pipeline-bind subsequence of an emitted command list. -/
def pipelineBinds (cs : List Cmd) : List Pip :=
  cs.filterMap (fun c => match c with
    | .bindPipeline p => some p
    | _ => none)

/-- The C vtable's `getTextureSize` entry: looks the texture up, reports
not-found for a missing id, and otherwise writes `tex->width()` into *both*
output parameters (`*w` and `*h` — the source assigns `tex->width()` to
`*h` as well). -/
def getTextureSize (r : Renderer) (image : ℕ) : Option (ℕ × ℕ) :=
  (r.texture image).map (fun t => (t.width, t.width))

/-- A texture-registry call: `createTexture` or `deleteTexture`. -/
inductive TexOp where
  | create (fmt : VkFormat) (w h : ℕ)
  | delete (id : ℕ)
deriving DecidableEq

/-- Run a sequence of texture-registry calls, collecting the ids returned by
the `createTexture` calls in order. -/
def runTexOps (r : Renderer) : List TexOp → Renderer × List ℕ
  | [] => (r, [])
  | TexOp.create fmt w h :: ops =>
    let c := r.createTexture fmt w h
    let rest := runTexOps c.2 ops
    (rest.1, c.1 :: rest.2)
  | TexOp.delete id :: ops =>
    runTexOps (r.deleteTexture id).2 ops

/-- The number of `createTexture` calls in a texture-op sequence. -/
def countCreates : List TexOp → ℕ
  | [] => 0
  | TexOp.create _ _ _ :: ops => countCreates ops + 1
  | TexOp.delete _ :: ops => countCreates ops

/-- Any renderer call, for whole-lifetime traces. -/
inductive ROp where
  | rstart (w h : ℕ)
  | rfill (paint : NVGpaint) (scissor : NVGscissor) (fringe : ℚ)
      (bounds : List ℚ) (paths : List NVGpath)
  | rstroke (paint : NVGpaint) (scissor : NVGscissor)
      (fringe strokeWidth : ℚ) (paths : List NVGpath)
  | rtriangles (paint : NVGpaint) (scissor : NVGscissor)
      (verts : List NVGvertex)
  | rcancel
  | rflush
  | rcreate (fmt : VkFormat) (w h : ℕ)
  | rdelete (id : ℕ)

/-- One renderer call as a state transition (results discarded). -/
def rstep (inv : Xform → Xform) (sqrtf : ℚ → ℚ) (r : Renderer) :
    ROp → Renderer
  | .rstart w h => r.start w h
  | .rfill paint scissor fringe bounds paths =>
    r.fill inv sqrtf paint scissor fringe bounds paths
  | .rstroke paint scissor fringe strokeWidth paths =>
    r.stroke inv sqrtf paint scissor fringe strokeWidth paths
  | .rtriangles paint scissor verts =>
    r.triangles inv sqrtf paint scissor verts
  | .rcancel => r.cancel
  | .rflush => (r.flush).1
  | .rcreate fmt w h => (r.createTexture fmt w h).2
  | .rdelete id => (r.deleteTexture id).2

/-- Run a sequence of renderer calls. -/
def runROps (inv : Xform → Xform) (sqrtf : ℚ → ℚ) (r : Renderer) :
    List ROp → Renderer
  | [] => r
  | op :: ops => runROps inv sqrtf (rstep inv sqrtf r op) ops

/-- The three grow-only resource capacities of a renderer state. -/
def caps (r : Renderer) : ℕ × ℕ × ℕ :=
  (r.uniformBufSize, r.vertexBufSize, r.descriptorPoolSize)

/-- Componentwise order on the three capacities. -/
def capsLE (r1 r2 : Renderer) : Prop :=
  r1.uniformBufSize ≤ r2.uniformBufSize ∧
  r1.vertexBufSize ≤ r2.vertexBufSize ∧
  r1.descriptorPoolSize ≤ r2.descriptorPoolSize

/-- `noRebind b l b'`: starting with variant tag `b` bound, the pipeline
binds `l` never re-bind the variant that is already bound, and leave `b'`
bound at the end. -/
def noRebind : ℕ → List Pip → ℕ → Prop
  | b, [], b' => b' = b
  | b, p :: l, b' => pipNum p ≠ b ∧ noRebind (pipNum p) l b'

theorem noRebind_append {b b1 b2 : ℕ} {l1 l2 : List Pip}
    (h1 : noRebind b l1 b1) (h2 : noRebind b1 l2 b2) :
    noRebind b (l1 ++ l2) b2 := by
  induction l1 generalizing b with
  | nil => simpa [noRebind, h1.symm] using h2
  | cons p l ih =>
    exact ⟨h1.1, ih h1.2⟩

theorem pipelineBinds_append (l1 l2 : List Cmd) :
    pipelineBinds (l1 ++ l2) = pipelineBinds l1 ++ pipelineBinds l2 :=
  List.filterMap_append l1 l2 _

theorem recordFill_noRebind (b : ℕ) (p : Path) :
    noRebind b (pipelineBinds (recordFill b p).2) (recordFill b p).1 := by
  unfold recordFill
  split
  · split
    · simpa [pipelineBinds, noRebind, pipNum] using (by omega : ¬ 1 = b)
    · simp_all [pipelineBinds, noRebind]
  · simp [pipelineBinds, noRebind]

theorem recordStroke_noRebind (b : ℕ) (p : Path) :
    noRebind b (pipelineBinds (recordStroke b p).2) (recordStroke b p).1 := by
  unfold recordStroke
  split
  · split
    · simpa [pipelineBinds, noRebind, pipNum] using (by omega : ¬ 2 = b)
    · simp_all [pipelineBinds, noRebind]
  · simp [pipelineBinds, noRebind]

theorem recordTri_noRebind (b : ℕ) (d : DrawData) :
    noRebind b (pipelineBinds (recordTri b d).2) (recordTri b d).1 := by
  unfold recordTri
  split
  · split
    · simpa [pipelineBinds, noRebind, pipNum] using (by omega : ¬ 3 = b)
    · simp_all [pipelineBinds, noRebind]
  · simp [pipelineBinds, noRebind]

theorem recordPath_noRebind (b : ℕ) (p : Path) :
    noRebind b (pipelineBinds (recordPath b p).2) (recordPath b p).1 := by
  unfold recordPath
  rw [pipelineBinds_append]
  exact noRebind_append (recordFill_noRebind b p)
    (recordStroke_noRebind _ p)

theorem recordPaths_noRebind (b : ℕ) (ps : List Path) :
    noRebind b (pipelineBinds (recordPaths b ps).2) (recordPaths b ps).1 := by
  induction ps generalizing b with
  | nil => simp [recordPaths, pipelineBinds, noRebind]
  | cons p ps ih =>
    unfold recordPaths
    rw [pipelineBinds_append]
    exact noRebind_append (recordPath_noRebind b p) (ih _)

theorem recordData_noRebind (b : ℕ) (d : DrawData) :
    noRebind b (pipelineBinds (recordData b d).2) (recordData b d).1 := by
  unfold recordData
  simp only [pipelineBinds, List.filterMap_cons]
  rw [← pipelineBinds, pipelineBinds_append]
  exact noRebind_append (recordPaths_noRebind b d.paths)
    (recordTri_noRebind _ d)

/-- The identity 2x3 transform (`1 0 0 1 0 0`). -/
def xformId : Xform := ⟨1, 0, 0, 1, 0, 0⟩

/-- An opaque red. -/
def colorA : Color := ⟨1, 0, 0, 1⟩

/-- An opaque green. -/
def colorB : Color := ⟨0, 1, 0, 1⟩

/-- A disabled scissor: negative extent, triggering the sentinel branch. -/
def scissorOff : NVGscissor := ⟨xformId, -1, -1⟩

/-- An enabled scissor with a 10x10 extent. -/
def scissorOn : NVGscissor := ⟨xformId, 10, 10⟩

/-- A textured paint (image id 5). -/
def paintTex : NVGpaint := ⟨xformId, 2, 3, 0, 0, colorA, colorB, 5⟩

/-- A solid-color paint: no image, equal inner and outer colors. -/
def paintSolid : NVGpaint := ⟨xformId, 2, 3, 0, 0, colorA, colorA, 0⟩

/-- A gradient paint: no image, differing inner and outer colors,
extent (5, 7). -/
def paintGrad : NVGpaint := ⟨xformId, 5, 7, 0, 0, colorA, colorB, 0⟩

/-- All-zero 4x4 matrix. -/
def mat4zero : Mat4 := ⟨⟨0, 0, 0, 0⟩, ⟨0, 0, 0, 0⟩, ⟨0, 0, 0, 0⟩, ⟨0, 0, 0, 0⟩⟩

/-- A placeholder uniform record for hand-built draw entries. -/
def uni0 : UniformData := ⟨0, 0, 1, 0, colorA, colorA, mat4zero, mat4zero⟩

/-- A path with only fill geometry (3 vertices at offset 0). -/
def fillPath3 : Path := { fillOffset := 0, fillCount := 3 }

/-- A path with only stroke geometry (3 vertices at offset 0). -/
def strokePath3 : Path := { strokeOffset := 0, strokeCount := 3 }

theorem recordDatas_noRebind (b : ℕ) (ds : List DrawData) :
    noRebind b (pipelineBinds (recordDatas b ds).2)
      (recordDatas b ds).1 := by
  induction ds generalizing b with
  | nil => simp [recordDatas, pipelineBinds, noRebind]
  | cons d ds ih =>
    unfold recordDatas
    rw [pipelineBinds_append]
    exact noRebind_append (recordData_noRebind b d) (ih _)


/-! ## Claim theorems -/

/-- C1: every paint routed through `parsePaint` by `fill`/`stroke`/
`triangles` receives exactly one paint-kind tag, chosen in priority order:
textured (3) whenever the image id is nonzero, regardless of the colors;
else solid color (1) when the inner color equals the outer color
byte-for-byte; else gradient (2).  Each of `fill`, `stroke` and `triangles`
appends exactly one entry carrying that tag. -/
theorem parsePaint_classification (r : Renderer) (inv : Xform → Xform)
    (sqrtf : ℚ → ℚ) (paint : NVGpaint) (scissor : NVGscissor)
    (fringe strokeWidth : ℚ) (bounds : List ℚ) (paths : List NVGpath)
    (verts : List NVGvertex) :
    (paint.image ≠ 0 →
      (parsePaintData r inv sqrtf paint scissor fringe
        strokeWidth).uniformData.type = 3) ∧
    (paint.image = 0 → paint.innerColor = paint.outerColor →
      (parsePaintData r inv sqrtf paint scissor fringe
        strokeWidth).uniformData.type = 1) ∧
    (paint.image = 0 → paint.innerColor ≠ paint.outerColor →
      (parsePaintData r inv sqrtf paint scissor fringe
        strokeWidth).uniformData.type = 2) ∧
    ((r.fill inv sqrtf paint scissor fringe bounds paths).drawDatas.map
        (fun d => d.uniformData.type) =
      r.drawDatas.map (fun d => d.uniformData.type) ++
        [(parsePaintData r inv sqrtf paint scissor fringe
            fringe).uniformData.type]) ∧
    ((r.stroke inv sqrtf paint scissor fringe strokeWidth
        paths).drawDatas.map (fun d => d.uniformData.type) =
      r.drawDatas.map (fun d => d.uniformData.type) ++
        [(parsePaintData r inv sqrtf paint scissor fringe
            strokeWidth).uniformData.type]) ∧
    ((r.triangles inv sqrtf paint scissor verts).drawDatas.map
        (fun d => d.uniformData.type) =
      r.drawDatas.map (fun d => d.uniformData.type) ++
        [(parsePaintData r inv sqrtf paint scissor 1 1).uniformData.type]) := by
  refine ⟨fun h => ?_, fun h hc => ?_, fun h hc => ?_, ?_, ?_, ?_⟩
  · simp [parsePaintData, h]
  · simp [parsePaintData, h, hc]
  · simp [parsePaintData, h, hc]
  · simp [Renderer.fill]
  · simp [Renderer.stroke]
  · simp [Renderer.triangles]

/-- Witness for C1: concrete paints exercising every hypothesis — a paint
with image id 5 is tagged textured (3) even though its colors differ, a
paint with no image and equal colors is tagged color (1), and a paint with
no image and differing colors is tagged gradient (2). -/
theorem parsePaint_classification_witness :
    (parsePaintData Renderer.init (fun x => x) (fun q => q) paintTex
      scissorOn 1 1).uniformData.type = 3 ∧
    (parsePaintData Renderer.init (fun x => x) (fun q => q) paintSolid
      scissorOn 1 1).uniformData.type = 1 ∧
    (parsePaintData Renderer.init (fun x => x) (fun q => q) paintGrad
      scissorOn 1 1).uniformData.type = 2 :=
  ⟨(parsePaint_classification Renderer.init (fun x => x) (fun q => q)
      paintTex scissorOn 1 1 [] [] []).1 (by decide),
   (parsePaint_classification Renderer.init (fun x => x) (fun q => q)
      paintSolid scissorOn 1 1 [] [] []).2.1 (by decide) (by decide),
   (parsePaint_classification Renderer.init (fun x => x) (fun q => q)
      paintGrad scissorOn 1 1 [] [] []).2.2.1 (by decide) (by decide)⟩

/-- C2: when either scissor extent dimension is below -0.5, the scissor
matrix produced by `parsePaint` has fourth row exactly (1,1,1,1) and is
computed without inverting the scissor transform (it does not depend on the
inversion function at all); otherwise the inverted 2x3 scissor transform is
packed into the upper-left block with cell (2,2) set to 1, and the fourth
row carries the scissor extent and the two antialiasing scale factors
`sqrt(xform[0]^2 + xform[2]^2) / fringe` and
`sqrt(xform[1]^2 + xform[3]^2) / fringe`. -/
theorem parsePaint_scissor_sentinel (r : Renderer)
    (inv inv2 : Xform → Xform) (sqrtf : ℚ → ℚ) (paint : NVGpaint)
    (scissor : NVGscissor) (fringe strokeWidth : ℚ) :
    (scissor.extent0 < -(1 / 2) ∨ scissor.extent1 < -(1 / 2) →
      (parsePaintData r inv sqrtf paint scissor fringe
          strokeWidth).uniformData.scissorMat.r3 = ⟨1, 1, 1, 1⟩ ∧
      (parsePaintData r inv sqrtf paint scissor fringe
          strokeWidth).uniformData.scissorMat =
        (parsePaintData r inv2 sqrtf paint scissor fringe
          strokeWidth).uniformData.scissorMat) ∧
    (¬ (scissor.extent0 < -(1 / 2) ∨ scissor.extent1 < -(1 / 2)) →
      (parsePaintData r inv sqrtf paint scissor fringe
          strokeWidth).uniformData.scissorMat =
        ⟨⟨(inv scissor.xform).a, (inv scissor.xform).b, 0, paint.radius⟩,
         ⟨(inv scissor.xform).c, (inv scissor.xform).d, 0, paint.feather⟩,
         ⟨(inv scissor.xform).e, (inv scissor.xform).f, 1, strokeWidth⟩,
         ⟨scissor.extent0, scissor.extent1,
          sqrtf (scissor.xform.a * scissor.xform.a +
            scissor.xform.c * scissor.xform.c) / fringe,
          sqrtf (scissor.xform.b * scissor.xform.b +
            scissor.xform.d * scissor.xform.d) / fringe⟩⟩) := by
  constructor
  · intro h
    have e1 : (parsePaintData r inv sqrtf paint scissor fringe
        strokeWidth).uniformData.scissorMat =
        ⟨⟨0, 0, 0, paint.radius⟩, ⟨0, 0, 0, paint.feather⟩,
         ⟨0, 0, 0, strokeWidth⟩, ⟨1, 1, 1, 1⟩⟩ := by
      show scissorMatOf inv sqrtf paint scissor fringe strokeWidth = _
      unfold scissorMatOf
      exact if_pos h
    have e2 : (parsePaintData r inv2 sqrtf paint scissor fringe
        strokeWidth).uniformData.scissorMat =
        ⟨⟨0, 0, 0, paint.radius⟩, ⟨0, 0, 0, paint.feather⟩,
         ⟨0, 0, 0, strokeWidth⟩, ⟨1, 1, 1, 1⟩⟩ := by
      show scissorMatOf inv2 sqrtf paint scissor fringe strokeWidth = _
      unfold scissorMatOf
      exact if_pos h
    exact ⟨by rw [e1], by rw [e1, e2]⟩
  · intro h
    show scissorMatOf inv sqrtf paint scissor fringe strokeWidth = _
    unfold scissorMatOf
    exact if_neg h

/-- Witness for C2: with extent (-1,-1) the sentinel row appears and the
matrix ignores the inversion function (instantiated once with the identity
and once with a constant function); with extent (10,10) the packed form is
produced. -/
theorem parsePaint_scissor_sentinel_witness :
    ((parsePaintData Renderer.init (fun x => x) (fun q => q) paintGrad
        scissorOff 1 2).uniformData.scissorMat.r3 = ⟨1, 1, 1, 1⟩ ∧
      (parsePaintData Renderer.init (fun x => x) (fun q => q) paintGrad
          scissorOff 1 2).uniformData.scissorMat =
        (parsePaintData Renderer.init (fun _ => xformId) (fun q => q)
          paintGrad scissorOff 1 2).uniformData.scissorMat) ∧
    (parsePaintData Renderer.init (fun x => x) (fun q => q) paintGrad
        scissorOn 1 2).uniformData.scissorMat =
      ⟨⟨1, 0, 0, 0⟩, ⟨0, 1, 0, 0⟩, ⟨0, 0, 1, 2⟩, ⟨10, 10, 1, 1⟩⟩ :=
  ⟨(parsePaint_scissor_sentinel Renderer.init (fun x => x)
      (fun _ => xformId) (fun q => q) paintGrad scissorOff 1 2).1
      (by norm_num [scissorOff]),
   ((parsePaint_scissor_sentinel Renderer.init (fun x => x)
      (fun _ => xformId) (fun q => q) paintGrad scissorOn 1 2).2
      (by norm_num [scissorOn])).trans
      (by norm_num [scissorOn, xformId, paintGrad])⟩

/-- C9 counterexample: at `fringe = 1`, `strokeWidth = 3` the stroke
multiplier is 2, but no cell of the fourth row of the paint matrix holds it:
the fourth row is `(extent0, extent1, 0, 0) = (5, 7, 0, 0)`.  The stroke
multiplier sits at cell (0,3) instead. -/
theorem paintMat_strokeMult_not_in_row3 :
    strokeMult 3 1 = 2 ∧
    (parsePaintData Renderer.init (fun x => x) (fun q => q) paintGrad
      scissorOn 1 3).uniformData.paintMat.r3 = ⟨5, 7, 0, 0⟩ ∧
    ¬ ((parsePaintData Renderer.init (fun x => x) (fun q => q) paintGrad
          scissorOn 1 3).uniformData.paintMat.r3.x = strokeMult 3 1 ∨
       (parsePaintData Renderer.init (fun x => x) (fun q => q) paintGrad
          scissorOn 1 3).uniformData.paintMat.r3.y = strokeMult 3 1 ∨
       (parsePaintData Renderer.init (fun x => x) (fun q => q) paintGrad
          scissorOn 1 3).uniformData.paintMat.r3.z = strokeMult 3 1 ∨
       (parsePaintData Renderer.init (fun x => x) (fun q => q) paintGrad
          scissorOn 1 3).uniformData.paintMat.r3.w = strokeMult 3 1) ∧
    (parsePaintData Renderer.init (fun x => x) (fun q => q) paintGrad
      scissorOn 1 3).uniformData.paintMat.r0.w = strokeMult 3 1 := by
  norm_num [parsePaintData, paintMatOf, strokeMult, paintGrad, xformId]

/-- C9 (amended): the paint matrix produced by `parsePaint` packs the
inverted 2x3 paint transform into the upper-left block with cell (2,2) set
to 1; its fourth row carries the paint extent (and zeros); and the single
stroke-multiplier scalar `(strokeWidth*0.5 + fringe*0.5) / fringe` is stored
at cell (0,3), not in the fourth row. -/
theorem parsePaint_paintMat (r : Renderer) (inv : Xform → Xform)
    (sqrtf : ℚ → ℚ) (paint : NVGpaint) (scissor : NVGscissor)
    (fringe strokeWidth : ℚ) :
    (parsePaintData r inv sqrtf paint scissor fringe
        strokeWidth).uniformData.paintMat =
      ⟨⟨(inv paint.xform).a, (inv paint.xform).b, 0,
        (strokeWidth * (1 / 2) + fringe * (1 / 2)) / fringe⟩,
       ⟨(inv paint.xform).c, (inv paint.xform).d, 0, 0⟩,
       ⟨(inv paint.xform).e, (inv paint.xform).f, 1, 0⟩,
       ⟨paint.extent0, paint.extent1, 0, 0⟩⟩ := by
  simp [parsePaintData, paintMatOf, strokeMult]

/-- A renderer holding one draw entry whose path draws, in order, are
fill, fill, stroke, fill. -/
def drawsFFSF : Renderer :=
  { Renderer.init with
    drawDatas := [{ uniformData := uni0
                    paths := [fillPath3, fillPath3, strokePath3,
                      fillPath3] }] }

/-- C7 counterexample: for a draw-entry sequence whose path draws are
[fill, fill, stroke, fill], `record` issues 3 pipeline binds
(fan, strip, fan) — not the 2 the claim asserts. -/
theorem record_ffsf_issues_three_binds :
    pipelineBinds drawsFFSF.record = [Pip.fan, Pip.strip, Pip.fan] ∧
    (pipelineBinds drawsFFSF.record).length ≠ 2 := by
  decide

/-- C7 (amended): the command emitter skips a pipeline bind whenever the
currently bound variant already matches the one required by the next draw —
no emitted bind ever re-binds the variant already bound — and for a
draw-entry sequence whose path draws are [fill, fill, stroke, fill] it
issues exactly 3 pipeline binds (fan, strip, fan), not 4. -/
theorem record_skips_matching_binds :
    (∀ r : Renderer,
      noRebind 0 (pipelineBinds r.record) (recordDatas 0 r.drawDatas).1) ∧
    pipelineBinds drawsFFSF.record = [Pip.fan, Pip.strip, Pip.fan] := by
  constructor
  · intro r
    exact recordDatas_noRebind 0 r.drawDatas
  · decide

/-- C3: `Renderer::cancel` has an empty body, so it leaves the renderer
state — in particular the accumulated draw entries and vertices —
completely unchanged; after `start` followed by one `triangles` call,
cancelling leaves one accumulated entry and one vertex instead of
discarding them. -/
theorem cancel_keeps_accumulated_entries :
    (∀ r : Renderer, r.cancel = r) ∧
    ((Renderer.init.start 10 10).triangles (fun x => x) (fun q => q)
        paintSolid scissorOn [⟨0, 0, 0, 0⟩]).cancel.drawDatas.length = 1 ∧
    ((Renderer.init.start 10 10).triangles (fun x => x) (fun q => q)
        paintSolid scissorOn [⟨0, 0, 0, 0⟩]).cancel.vertices.length = 1 :=
  ⟨fun _ => rfl, by decide, by decide⟩

/-- C8: the C-vtable `getTextureSize` reports not-found for an unknown or
zero id, but writes the texture's *width* into both outputs: for a
registered 4x8 texture it reports (4, 4) although the stored height is 8. -/
theorem getTextureSize_reports_width_twice :
    getTextureSize
        (Renderer.init.createTexture VkFormat.r8g8b8a8Unorm 4 8).2 1 =
      some (4, 4) ∧
    ((Renderer.init.createTexture VkFormat.r8g8b8a8Unorm 4 8).2.texture
        1).map Texture.height = some 8 ∧
    getTextureSize Renderer.init 0 = none ∧
    getTextureSize
        (Renderer.init.createTexture VkFormat.r8g8b8a8Unorm 4 8).2 7 =
      none := by
  decide

theorem deleteTexture_texID (r : Renderer) (id : ℕ) :
    (r.deleteTexture id).2.texID = r.texID := by
  unfold Renderer.deleteTexture
  split <;> rfl

theorem runTexOps_ids (ops : List TexOp) (r : Renderer)
    (h : r.texID + countCreates ops < u32) :
    (runTexOps r ops).2 = List.range' (r.texID + 1) (countCreates ops) := by
  induction ops generalizing r with
  | nil => simp [runTexOps, countCreates]
  | cons op ops ih =>
    cases op with
    | create fmt w ht =>
      have hc : countCreates (TexOp.create fmt w ht :: ops) =
          countCreates ops + 1 := rfl
      rw [hc] at h ⊢
      have h1 : r.texID + 1 < u32 := by omega
      have hmod : (r.texID + 1) % u32 = r.texID + 1 := Nat.mod_eq_of_lt h1
      simp only [runTexOps, Renderer.createTexture, hmod]
      rw [ih _ (by simpa using (by omega : (r.texID + 1) + countCreates ops < u32))]
      rw [List.range'_succ]
    | delete id =>
      have hc : countCreates (TexOp.delete id :: ops) = countCreates ops := rfl
      rw [hc] at h ⊢
      simp only [runTexOps]
      rw [ih _ (by rw [deleteTexture_texID]; omega), deleteTexture_texID]

/-- C4: for every sequence of `createTexture`/`deleteTexture` calls from a
fresh renderer (short of the `unsigned int` counter wrapping, i.e. fewer
than `2^32` creations), the ids returned by `createTexture` are exactly
1, 2, 3, …, so every returned id is strictly greater than every previously
returned id, id 0 is never returned, and no id — deleted or not — is ever
returned twice. -/
theorem createTexture_ids_strictly_increase (ops : List TexOp)
    (h : countCreates ops < u32) :
    (runTexOps Renderer.init ops).2 = List.range' 1 (countCreates ops) ∧
    (runTexOps Renderer.init ops).2.Pairwise (· < ·) ∧
    0 ∉ (runTexOps Renderer.init ops).2 := by
  have e : (runTexOps Renderer.init ops).2 =
      List.range' 1 (countCreates ops) := by
    simpa using runTexOps_ids ops Renderer.init (by simpa [Renderer.init])
  refine ⟨e, ?_, ?_⟩
  · rw [e]; exact List.pairwise_lt_range' 1 (countCreates ops)
  · rw [e]
    intro hmem
    rcases List.mem_range'_1.mp hmem with ⟨h0, _⟩
    omega

/-- A create–delete–create call sequence for the texture registry. -/
def texOpsDemo : List TexOp :=
  [TexOp.create VkFormat.r8g8b8a8Unorm 4 4, TexOp.delete 1,
   TexOp.create VkFormat.r8Unorm 2 2]

/-- Witness for C4: on create–delete–create the returned ids are [1, 2] —
increasing, free of 0, and the deleted id 1 is not reused. -/
theorem createTexture_ids_witness :
    (runTexOps Renderer.init texOpsDemo).2 = [1, 2] ∧
    (runTexOps Renderer.init texOpsDemo).2.Pairwise (· < ·) ∧
    0 ∉ (runTexOps Renderer.init texOpsDemo).2 :=
  ⟨(createTexture_ids_strictly_increase texOpsDemo (by decide)).1.trans
      (by decide),
   (createTexture_ids_strictly_increase texOpsDemo (by decide)).2.1,
   (createTexture_ids_strictly_increase texOpsDemo (by decide)).2.2⟩

theorem eraseP_id_eq_filter (id : ℕ) (l : List Texture)
    (h : (l.map Texture.id).Nodup) :
    l.eraseP (fun t => t.id == id) = l.filter (fun t => t.id != id) := by
  induction l with
  | nil => rfl
  | cons t ts ih =>
    simp only [List.map_cons, List.nodup_cons] at h
    by_cases ht : t.id = id
    · rw [List.eraseP_cons_of_pos (by simpa using ht),
        List.filter_cons_of_neg (by simpa using ht)]
      refine (List.filter_eq_self.mpr ?_).symm
      intro x hx
      have : x.id ≠ t.id := fun he => h.1 (he ▸ List.mem_map_of_mem _ hx)
      simpa [ht] using fun he => this (ht ▸ he)
    · rw [List.eraseP_cons_of_neg (by simpa using ht),
        List.filter_cons_of_pos (by simpa using ht), ih h.2]

/-- C5: when some registered texture carries the requested id (ids being
distinct, as `createTexture` guarantees), `deleteTexture` returns true and
removes exactly the textures with that id; for an unknown id it returns
false and leaves the registry unchanged.  Concretely: after
`createTexture(RGBA,4,4)` returns id 1, `deleteTexture 1` returns true,
a second `deleteTexture 1` returns false, and a later `createTexture`
returns the fresh id 2, not the reused id 1. -/
theorem deleteTexture_removes_exactly (r : Renderer) (id : ℕ)
    (h : (r.textures.map Texture.id).Nodup) :
    ((∃ t ∈ r.textures, t.id = id) →
      (r.deleteTexture id).1 = true ∧
      (r.deleteTexture id).2.textures =
        r.textures.filter (fun t => t.id != id)) ∧
    ((∀ t ∈ r.textures, t.id ≠ id) →
      (r.deleteTexture id).1 = false ∧ (r.deleteTexture id).2 = r) ∧
    ((Renderer.init.createTexture VkFormat.r8g8b8a8Unorm 4 4).1 = 1 ∧
      ((Renderer.init.createTexture
        VkFormat.r8g8b8a8Unorm 4 4).2.deleteTexture 1).1 = true ∧
      (((Renderer.init.createTexture
          VkFormat.r8g8b8a8Unorm 4 4).2.deleteTexture 1).2.deleteTexture
          1).1 = false ∧
      ((((Renderer.init.createTexture
          VkFormat.r8g8b8a8Unorm 4 4).2.deleteTexture 1).2.deleteTexture
          1).2.createTexture VkFormat.r8Unorm 2 2).1 = 2) := by
  refine ⟨?_, ?_, by decide, by decide, by decide, by decide⟩
  · rintro ⟨t, ht, hid⟩
    have hs : (r.textures.find? (fun t => t.id == id)).isSome :=
      List.find?_isSome.mpr ⟨t, ht, by simp [hid]⟩
    unfold Renderer.deleteTexture
    rw [if_pos hs]
    exact ⟨rfl, eraseP_id_eq_filter id r.textures h⟩
  · intro hall
    have hs : ¬ (r.textures.find? (fun t => t.id == id)).isSome = true := by
      rw [List.find?_isSome]
      rintro ⟨t, ht, he⟩
      exact hall t ht (by simpa using he)
    unfold Renderer.deleteTexture
    rw [if_neg hs]
    exact ⟨rfl, rfl⟩

/-- Witness for C5: deleting id 1 from a registry holding exactly the 4x4
texture with id 1 succeeds and empties the registry; deleting id 7 from the
same registry fails and changes nothing. -/
theorem deleteTexture_removes_exactly_witness :
    (((Renderer.init.createTexture
        VkFormat.r8g8b8a8Unorm 4 4).2.deleteTexture 1).1 = true ∧
      ((Renderer.init.createTexture
        VkFormat.r8g8b8a8Unorm 4 4).2.deleteTexture 1).2.textures =
        (Renderer.init.createTexture
          VkFormat.r8g8b8a8Unorm 4 4).2.textures.filter
          (fun t => t.id != 1)) ∧
    (((Renderer.init.createTexture
        VkFormat.r8g8b8a8Unorm 4 4).2.deleteTexture 7).1 = false ∧
      ((Renderer.init.createTexture
        VkFormat.r8g8b8a8Unorm 4 4).2.deleteTexture 7).2 =
        (Renderer.init.createTexture VkFormat.r8g8b8a8Unorm 4 4).2) :=
  ⟨(deleteTexture_removes_exactly
      (Renderer.init.createTexture VkFormat.r8g8b8a8Unorm 4 4).2 1
      (by decide)).1 (by decide),
   (deleteTexture_removes_exactly
      (Renderer.init.createTexture VkFormat.r8g8b8a8Unorm 4 4).2 7
      (by decide)).2.1 (by decide)⟩

/-- C10: the renderer's texture lookups, dereferenced without a null check
in `parsePaint` and in the descriptor-update loop of `flush`, cannot hit
the null (not-found) branch as long as every nonzero referenced id
designates a registered texture; and a draw entry with texture id 0 is
bound to the dummy placeholder image instead of a texture lookup. -/
theorem texture_deref_safe (r : Renderer) :
    (∀ img : ℕ, img ≠ 0 → (∃ t ∈ r.textures, t.id = img) →
      (r.texture img).isSome) ∧
    (∀ d ∈ r.drawDatas, d.texture = 0 →
      flushBinding d = BoundImage.dummy) ∧
    (∀ d ∈ r.drawDatas, d.texture ≠ 0 →
      flushBinding d = BoundImage.tex d.texture) ∧
    (¬ r.drawDatas.isEmpty = true →
      (r.flush).2.bindings = r.drawDatas.map flushBinding) := by
  refine ⟨?_, ?_, ?_, ?_⟩
  · rintro img _ ⟨t, ht, hid⟩
    exact List.find?_isSome.mpr ⟨t, ht, by simp [hid]⟩
  · intro d _ h0
    simp [flushBinding, h0]
  · intro d _ h0
    simp [flushBinding, h0]
  · intro hne
    unfold Renderer.flush
    rw [if_neg hne]

/-- A registry state with one 2x2 RGBA texture of id 5 and two draw
entries, one referencing texture 5 and one referencing no texture. -/
def rBindDemo : Renderer :=
  { Renderer.init with
    textures := [⟨5, 2, 2, VkFormat.r8g8b8a8Unorm⟩]
    drawDatas := [{ uniformData := uni0, texture := 5 },
                  { uniformData := uni0, texture := 0 }] }

/-- Witness for C10: with texture 5 registered, the lookup for image id 5
succeeds, and flush binds the entry with texture 5 to that texture and the
texture-less entry to the dummy image. -/
theorem texture_deref_safe_witness :
    (rBindDemo.texture 5).isSome ∧
    (rBindDemo.flush).2.bindings = [BoundImage.tex 5, BoundImage.dummy] :=
  ⟨(texture_deref_safe rBindDemo).1 5 (by decide) (by decide),
   ((texture_deref_safe rBindDemo).2.2.2 (by decide)).trans (by decide)⟩

theorem capsLE_refl (r : Renderer) : capsLE r r :=
  ⟨le_refl _, le_refl _, le_refl _⟩

theorem capsLE_trans {a b c : Renderer} (h1 : capsLE a b)
    (h2 : capsLE b c) : capsLE a c :=
  ⟨h1.1.trans h2.1, h1.2.1.trans h2.2.1, h1.2.2.trans h2.2.2⟩

theorem flush_capsLE (r : Renderer) : capsLE r (r.flush).1 := by
  unfold Renderer.flush capsLE
  split
  · exact capsLE_refl r
  · dsimp only
    refine ⟨?_, ?_, ?_⟩
    · split <;> omega
    · split <;> omega
    · split
      · dsimp only; omega
      · split <;> dsimp only <;> omega

theorem rstep_capsLE (inv : Xform → Xform) (sqrtf : ℚ → ℚ) (r : Renderer)
    (op : ROp) : capsLE r (rstep inv sqrtf r op) := by
  cases op with
  | rflush => exact flush_capsLE r
  | rdelete id =>
    show capsLE r (r.deleteTexture id).2
    unfold Renderer.deleteTexture
    split <;> exact capsLE_refl r
  | rstart w h => exact capsLE_refl r
  | rfill paint scissor fringe bounds paths => exact capsLE_refl r
  | rstroke paint scissor fringe strokeWidth paths => exact capsLE_refl r
  | rtriangles paint scissor verts => exact capsLE_refl r
  | rcancel => exact capsLE_refl r
  | rcreate fmt w h => exact capsLE_refl r

theorem runROps_capsLE (inv : Xform → Xform) (sqrtf : ℚ → ℚ)
    (ops : List ROp) (r : Renderer) :
    capsLE r (runROps inv sqrtf r ops) := by
  induction ops generalizing r with
  | nil => exact capsLE_refl r
  | cons op ops ih =>
    exact capsLE_trans (rstep_capsLE inv sqrtf r op) (ih _)

theorem flush_realloc_exact (r : Renderer) :
    (∀ s, (r.flush).2.uniformRealloc = some s →
      r.uniformBufSize < s ∧
      s = sizeofUniformData * r.drawDatas.length ∧
      (r.flush).1.uniformBufSize = s) ∧
    (∀ s, (r.flush).2.vertexRealloc = some s →
      r.vertexBufSize < s ∧
      s = r.vertices.length * sizeofNVGvertex ∧
      (r.flush).1.vertexBufSize = s) ∧
    (∀ m, (r.flush).2.poolAction = PoolAction.realloc m →
      r.descriptorPoolSize < m ∧
      m = r.drawDatas.length ∧
      (r.flush).1.descriptorPoolSize = m) ∧
    (¬ r.drawDatas.isEmpty = true →
      r.drawDatas.length ≤ r.descriptorPoolSize →
      r.hasDescriptorPool = true →
      (r.flush).2.poolAction = PoolAction.reset ∧
      (r.flush).1.descriptorPoolSize = r.descriptorPoolSize) := by
  unfold Renderer.flush
  split
  · refine ⟨?_, ?_, ?_, ?_⟩
    · intro s hs; simp at hs
    · intro s hs; simp at hs
    · intro m hm; simp at hm
    · intro hne; simp_all
  · dsimp only
    refine ⟨?_, ?_, ?_, ?_⟩
    · intro s hs
      by_cases h1 :
          r.uniformBufSize < sizeofUniformData * r.drawDatas.length
      · simp only [if_pos h1] at hs ⊢
        obtain rfl : sizeofUniformData * r.drawDatas.length = s := by
          injection hs
        exact ⟨h1, rfl, rfl⟩
      · simp only [if_neg h1] at hs
        exact Option.noConfusion hs
    · intro s hs
      by_cases h2 : r.vertexBufSize < r.vertices.length * sizeofNVGvertex
      · simp only [if_pos h2] at hs ⊢
        obtain rfl : r.vertices.length * sizeofNVGvertex = s := by
          injection hs
        exact ⟨h2, rfl, rfl⟩
      · simp only [if_neg h2] at hs
        exact Option.noConfusion hs
    · intro m hm
      by_cases h3 : r.descriptorPoolSize < r.drawDatas.length
      · simp only [if_pos h3] at hm ⊢
        obtain rfl : r.drawDatas.length = m := by injection hm
        exact ⟨h3, rfl, rfl⟩
      · simp only [if_neg h3] at hm ⊢
        split at hm <;> exact PoolAction.noConfusion hm
    · intro hne hle hpool
      have h3 : ¬ r.descriptorPoolSize < r.drawDatas.length := by omega
      simp only [if_neg h3, if_pos hpool]
      exact ⟨trivial, trivial⟩

/-- C6: across any sequence of renderer calls the uniform-buffer,
vertex-buffer and descriptor-pool capacities are non-decreasing; a flush
that needs more than a current capacity reallocates that resource to
exactly the new requirement (uniform: `sizeof(UniformData) * entryCount`,
vertex: accumulated vertex bytes, pool: `entryCount` sets); and when the
descriptor pool already suffices it is reset, keeping its size, rather than
reallocated. -/
theorem capacities_grow_only (inv : Xform → Xform) (sqrtf : ℚ → ℚ) :
    (∀ (r : Renderer) (ops : List ROp),
      capsLE r (runROps inv sqrtf r ops)) ∧
    (∀ r : Renderer,
      (∀ s, (r.flush).2.uniformRealloc = some s →
        r.uniformBufSize < s ∧
        s = sizeofUniformData * r.drawDatas.length ∧
        (r.flush).1.uniformBufSize = s) ∧
      (∀ s, (r.flush).2.vertexRealloc = some s →
        r.vertexBufSize < s ∧
        s = r.vertices.length * sizeofNVGvertex ∧
        (r.flush).1.vertexBufSize = s) ∧
      (∀ m, (r.flush).2.poolAction = PoolAction.realloc m →
        r.descriptorPoolSize < m ∧
        m = r.drawDatas.length ∧
        (r.flush).1.descriptorPoolSize = m) ∧
      (¬ r.drawDatas.isEmpty = true →
        r.drawDatas.length ≤ r.descriptorPoolSize →
        r.hasDescriptorPool = true →
        (r.flush).2.poolAction = PoolAction.reset ∧
        (r.flush).1.descriptorPoolSize = r.descriptorPoolSize)) :=
  ⟨fun r ops => runROps_capsLE inv sqrtf ops r, flush_realloc_exact⟩

/-- A session state with one accumulated entry and one vertex and no
resources allocated yet. -/
def rFlushDemo : Renderer :=
  { Renderer.init with
    drawDatas := [{ uniformData := uni0 }]
    vertices := [⟨0, 0, 0, 0⟩] }

/-- The same session with an oversized (5-set) descriptor pool already
allocated. -/
def rPoolDemo : Renderer :=
  { rFlushDemo with descriptorPoolSize := 5, hasDescriptorPool := true }

/-- Witness for C6: flushing one entry from a fresh state grows the
uniform buffer to exactly 176 bytes, and flushing one entry with a 5-set
pool already allocated resets the pool, keeping its size. -/
theorem capacities_grow_only_witness :
    capsLE rFlushDemo
      (runROps (fun x => x) (fun q => q) rFlushDemo [ROp.rflush]) ∧
    (rFlushDemo.uniformBufSize < 176 ∧
      176 = sizeofUniformData * rFlushDemo.drawDatas.length ∧
      (rFlushDemo.flush).1.uniformBufSize = 176) ∧
    ((rPoolDemo.flush).2.poolAction = PoolAction.reset ∧
      (rPoolDemo.flush).1.descriptorPoolSize =
        rPoolDemo.descriptorPoolSize) :=
  ⟨(capacities_grow_only (fun x => x) (fun q => q)).1 rFlushDemo
      [ROp.rflush],
   ((capacities_grow_only (fun x => x) (fun q => q)).2 rFlushDemo).1 176
      (by decide),
   ((capacities_grow_only (fun x => x) (fun q => q)).2 rPoolDemo).2.2.2
      (by decide) (by decide) (by decide)⟩
